import Mathlib

/-!
Verification of the status-harvesting core of the repository.

The authoritative source is the final iteration of the script
(src/unnamed/part_003), whose main pieces are:
  - sanitizeFilename         (lines 33-38)
  - getContactInfo           (lines 26-31)
  - connectToWhatsApp        (lines 40-112), in particular the
    connection.update handler (lines 60-78), the messages.upsert
    handler (lines 80-86) and the messaging-history.set handler
    (lines 88-111)
  - processStatusMessage     (lines 114-174)
  - getInteractiveSettings   (lines 176-191)

JavaScript semantics that matter for fidelity are modelled explicitly:
  - string truthiness (the empty string is falsy, so a || b and if (!x)
    are modelled through truthyOpt / jsOrStr);
  - the regular expression character class \s of the replace call;
  - the fact that line 159 declares buffer with const and lines 160-162
    reassign it inside the for-await loop, which raises a TypeError on
    the first chunk, caught by the try/catch of lines 115/171;
  - the fact that the reconnect call on line 72 passes no argument, so
    the reconnected invocation of connectToWhatsApp closes over an
    undefined config, and line 101 then raises a TypeError as soon as
    the history handler reaches its delay logic.
-/

namespace Strup

/-- The character class removed by the first replace of sanitizeFilename:
the regular expression is /[\/\\?%*:|"<>]/g (part_003 line 36). -/
def forbiddenChars : List Char :=
  ['/', '\\', '?', '%', '*', ':', '|', '"', '<', '>']

/-- The JavaScript regular-expression class \s (whitespace), used by the
second replace of sanitizeFilename (part_003 line 36). -/
def jsSpace (c : Char) : Bool :=
  let n := c.toNat
  n = 0x20 || n = 0x9 || n = 0xa || n = 0xb || n = 0xc || n = 0xd ||
  n = 0xa0 || n = 0x1680 || (0x2000 ≤ n && n ≤ 0x200a) ||
  n = 0x2028 || n = 0x2029 || n = 0x202f || n = 0x205f ||
  n = 0x3000 || n = 0xfeff

/-- Left-to-right scan behind collapseWS: inSpace records whether the
previous character belonged to a whitespace run, so that each maximal
run contributes exactly one underscore. -/
def collapseWSAux (inSpace : Bool) : List Char → List Char
  | [] => []
  | c :: rest =>
    if jsSpace c then
      if inSpace then collapseWSAux true rest
      else '_' :: collapseWSAux true rest
    else c :: collapseWSAux false rest

/-- Replace every maximal run of \s characters by a single underscore:
the effect of .replace(/\s+/g, the underscore) on a character list. -/
def collapseWS (l : List Char) : List Char :=
  collapseWSAux false l

/-- Model of String.prototype.substring(0, n): the first n characters. -/
def substrTake (s : String) (n : Nat) : String :=
  String.mk (s.data.take n)

/-- sanitizeFilename of part_003 lines 33-38: on a falsy (empty) string
return the empty string; otherwise remove the forbidden characters,
collapse whitespace runs to underscores, and truncate to maxLength. -/
def sanitizeFilename (s : String) (maxLength : Nat) : String :=
  if s = "" then ""
  else
    let step1 := s.data.filter (fun c => !(forbiddenChars.contains c))
    let step2 := collapseWS step1
    String.mk (step2.take maxLength)

/-- JavaScript a || b for an optional string a and a string b: the empty
string is falsy. -/
def jsOrStr (a : Option String) (b : String) : String :=
  match a with
  | some s => if s = "" then b else s
  | none => b

/-- Normalise an optional JavaScript string to none when it is falsy. -/
def truthyOpt (o : Option String) : Option String :=
  o.bind (fun s => if s = "" then none else some s)

/-- One entry of the in-memory contact cache (fed by contacts.upsert). -/
structure Contact where
  name : Option String
  notify : Option String
deriving DecidableEq, Repr

/-- The contact cache: sock.contacts, a map from jid to contact. -/
def ContactMap := List (String × Contact)

/-- jid.split(the at sign)[0]: the characters before the first at
sign, the whole string when there is none. -/
def jidPhone (jid : String) : String :=
  String.mk (jid.data.takeWhile (fun c => c ≠ '@'))

/-- getContactInfo of part_003 lines 26-31: resolve a display name as
contact?.name || contact?.notify || jid.split(the at sign)[0], and the
phone as the jid head. -/
def getContactInfo (jid : String) (contacts : ContactMap) : String × String :=
  let contact := (contacts.find? (fun p => p.1 = jid)).map (fun p => p.2)
  let name :=
    jsOrStr (contact.bind (fun c => c.name))
      (jsOrStr (contact.bind (fun c => c.notify)) (jidPhone jid))
  (name, jidPhone jid)

/-- An image payload: its caption, the chunks its media stream yields,
and whether the downloadContentFromMessage call itself fails. -/
structure ImageMessage where
  caption : Option String
  chunks : List (List Nat)
  fetchFails : Bool
deriving DecidableEq, Repr

/-- An extended text payload. -/
structure ExtendedTextMessage where
  text : Option String
deriving DecidableEq, Repr

/-- The message body: only the fields the source reads. -/
structure MessageContent where
  imageMessage : Option ImageMessage
  extendedTextMessage : Option ExtendedTextMessage
  videoMessage : Bool
deriving DecidableEq, Repr

/-- The message key: the fields the source reads. -/
structure MessageKey where
  remoteJid : String
  id : String
  participant : Option String
deriving DecidableEq, Repr

/-- One inbound event as the handlers see it. -/
structure WAMessage where
  key : MessageKey
  participant : Option String
  message : Option MessageContent
deriving DecidableEq, Repr

/-- m.participant || m.key.participant followed by the truthiness test
of part_003 lines 117-121. -/
def senderField (m : WAMessage) : Option String :=
  truthyOpt m.participant <|> truthyOpt m.key.participant

/-- m.message?.imageMessage. -/
def imageField (m : WAMessage) : Option ImageMessage :=
  m.message.bind (fun c => c.imageMessage)

/-- m.message?.extendedTextMessage?.text with the truthiness of the
else-if guard on part_003 line 133: empty text is falsy. -/
def truthyText (m : WAMessage) : Option String :=
  truthyOpt ((m.message.bind (fun c => c.extendedTextMessage)).bind
    (fun e => e.text))

/-- Presence of m.message?.videoMessage. -/
def hasVideo (m : WAMessage) : Bool :=
  (m.message.map (fun c => c.videoMessage)).getD false

/-- A persisted artifact body. -/
inductive FileContent
  | bytes (b : List Nat)
  | text (t : String)
deriving DecidableEq, Repr

/-- The downloads directory as an association of path to content. -/
def FS := List (String × FileContent)

instance : DecidableEq FS := by
  unfold FS
  infer_instance

/-- fs.existsSync on the modelled directory. -/
def existsSync (fs : FS) (name : String) : Bool :=
  fs.any (fun p => p.1 = name)

/-- fs.writeFileSync: overwrite the entry when present, add it else. -/
def fsWrite (fs : FS) (name : String) (c : FileContent) : FS :=
  if existsSync fs name then
    fs.map (fun p => if p.1 = name then (name, c) else p)
  else (name, c) :: fs

/-- What one processStatusMessage call did. -/
inductive Outcome
  | savedImage
  | savedText
  | skippedNoSender
  | skippedVideo
  | skippedOther
  | alreadyExists
  | errored (eventId : String) (msg : String)
deriving DecidableEq, Repr

/-- The state after one processStatusMessage call: the directory, the
number of media downloads started, and the outcome. -/
structure ProcResult where
  fs : FS
  fetches : Nat
  outcome : Outcome
deriving DecidableEq

/-- processStatusMessage of part_003 lines 114-174.  The filename is
determined first (lines 128-145, with the video and unrecognised kinds
returning before any filename exists), then the existence check of
lines 147-151 returns early, then the download or write happens.  On the
image path the source declares buffer with const on line 159 and
reassigns it on line 161, so any stream that yields at least one chunk
raises a TypeError that the try/catch of lines 115/171 turns into a
logged failure carrying m.key.id; an empty stream writes an empty
buffer. -/
def processStatusMessage (contacts : ContactMap) (m : WAMessage)
    (fs : FS) : ProcResult :=
  match senderField m with
  | none => { fs := fs, fetches := 0, outcome := .skippedNoSender }
  | some senderJid =>
    let name := (getContactInfo senderJid contacts).1
    let shortId := substrTake m.key.id 8
    let sanitizedName := sanitizeFilename name 50
    match imageField m with
    | some img =>
      let sanitizedCaption := sanitizeFilename (jsOrStr img.caption "") 50
      let filename :=
        "downloads/" ++ sanitizedName ++ "_" ++ shortId ++ "_" ++
          sanitizedCaption ++ ".jpg"
      if existsSync fs filename then
        { fs := fs, fetches := 0, outcome := .alreadyExists }
      else if img.fetchFails then
        { fs := fs, fetches := 1, outcome := .errored m.key.id "fetch failed" }
      else
        match img.chunks with
        | [] =>
          { fs := fsWrite fs filename (.bytes []), fetches := 1,
            outcome := .savedImage }
        | _ :: _ =>
          { fs := fs, fetches := 1,
            outcome := .errored m.key.id "Assignment to constant variable." }
    | none =>
      match truthyText m with
      | some t =>
        let filename :=
          "downloads/" ++ sanitizedName ++ "_" ++ shortId ++ ".txt"
        if existsSync fs filename then
          { fs := fs, fetches := 0, outcome := .alreadyExists }
        else
          { fs := fsWrite fs filename (.text t), fetches := 0,
            outcome := .savedText }
      | none =>
        if hasVideo m then
          { fs := fs, fetches := 0, outcome := .skippedVideo }
        else
          { fs := fs, fetches := 0, outcome := .skippedOther }

/-- The naming algorithm of part_003 lines 123-134 in isolation: the
basename (without the downloads directory) the code derives for an
event, none when the event reaches no named branch. -/
def derivedBasename (contacts : ContactMap) (m : WAMessage) :
    Option String :=
  match senderField m with
  | none => none
  | some senderJid =>
    let name := (getContactInfo senderJid contacts).1
    let shortId := substrTake m.key.id 8
    let sanitizedName := sanitizeFilename name 50
    match imageField m with
    | some img =>
      some (sanitizedName ++ "_" ++ shortId ++ "_" ++
        sanitizeFilename (jsOrStr img.caption "") 50 ++ ".jpg")
    | none =>
      match truthyText m with
      | some _ => some (sanitizedName ++ "_" ++ shortId ++ ".txt")
      | none => none

/-- The pacing settings built by getInteractiveSettings
(part_003 lines 176-191), already converted to milliseconds. -/
structure Config where
  minDelay : Nat
  maxDelay : Nat
  batchSize : Nat
  batchDelay : Nat
deriving DecidableEq, Repr

/-- One inter-item pause issued by the history drain loop. -/
inductive Gap
  | long (d : Nat)
  | short (d : Nat)
deriving DecidableEq, Repr

/-- True on the long batch pause. -/
def isLongGap : Gap → Bool
  | .long _ => true
  | .short _ => false

/-- The randomized inter-status delay of part_003 line 106:
Math.floor(Math.random() * (maxDelay - minDelay + 1)) + minDelay, with
the Math.random() draw supplied as a rational q. -/
def jitter (cfg : Config) (q : ℚ) : Nat :=
  (Int.toNat ⌊q * ((cfg.maxDelay : ℚ) - (cfg.minDelay : ℚ) + 1)⌋) +
    cfg.minDelay

/-- The pause the loop issues after the item at index i of a drain of
total statuses (part_003 lines 100-108): the long batchDelay when
(i + 1) % batchSize === 0 and i + 1 < total, else the jitter. -/
def gapAt (cfg : Config) (rand : Nat → ℚ) (i total : Nat) : Gap :=
  if (i + 1) % cfg.batchSize = 0 ∧ i + 1 < total then
    Gap.long cfg.batchDelay
  else Gap.short (jitter cfg (rand i))

/-- The observable result of one messaging-history.set handler run:
the final directory, the per-item outcomes in order, the pauses issued,
and the uncaught error if the handler threw. -/
structure DrainResult where
  fs : FS
  outcomes : List Outcome
  gaps : List Gap
  fatal : Option String
deriving DecidableEq

/-- The drain loop of part_003 lines 94-109, parameterised over the
config the enclosing connectToWhatsApp invocation received.  When that
invocation was made with no argument (the reconnect call on line 72)
the config is undefined and the expression (i + 1) % config.batchSize
on line 101 raises a TypeError right after the first item has been
processed, aborting the rest of the drain. -/
def drainGo (config : Option Config) (contacts : ContactMap)
    (rand : Nat → ℚ) :
    List WAMessage → Nat → Nat → FS → DrainResult
  | [], _, _, fs => { fs := fs, outcomes := [], gaps := [], fatal := none }
  | m :: rest, i, total, fs =>
    let r := processStatusMessage contacts m fs
    match config with
    | none =>
      { fs := r.fs, outcomes := [r.outcome], gaps := [],
        fatal :=
          some "TypeError: Cannot read properties of undefined (reading batchSize)" }
    | some cfg =>
      let gap := gapAt cfg rand i total
      let res := drainGo config contacts rand rest (i + 1) total r.fs
      { fs := res.fs, outcomes := r.outcome :: res.outcomes,
        gaps := gap :: res.gaps, fatal := res.fatal }

/-- The messaging-history.set handler of part_003 lines 88-111: filter
the replayed array to broadcast-scoped events, then drain it. -/
def historyHandler (config : Option Config) (contacts : ContactMap)
    (rand : Nat → ℚ) (messages : List WAMessage) (fs : FS) : DrainResult :=
  let statuses :=
    messages.filter (fun m => m.key.remoteJid == "status@broadcast")
  drainGo config contacts rand statuses 0 statuses.length fs

/-- The messages.upsert handler of part_003 lines 80-86: process every
broadcast-scoped live event in arrival order, no pacing. -/
def liveUpsert (contacts : ContactMap) :
    List WAMessage → FS → FS × List Outcome
  | [], fs => (fs, [])
  | m :: rest, fs =>
    if m.key.remoteJid == "status@broadcast" then
      let r := processStatusMessage contacts m fs
      let (fsFinal, outs) := liveUpsert contacts rest r.fs
      (fsFinal, r.outcome :: outs)
    else liveUpsert contacts rest fs

/-- DisconnectReason.loggedOut of the transport library. -/
def loggedOutCode : Nat := 401

/-- The session a connectToWhatsApp invocation builds, recording which
config value the invocation closed over. -/
structure Session where
  config : Option Config
deriving DecidableEq, Repr

/-- connectToWhatsApp (part_003 lines 40-112) as a session builder. -/
def connectToWhatsApp (config : Option Config) : Session :=
  { config := config }

/-- The close branch of the connection.update handler
(part_003 lines 68-73): reconnect exactly when the status code of the
last disconnect differs from DisconnectReason.loggedOut, and the
reconnect call on line 72 passes no argument. -/
def handleConnectionClose (statusCode : Option Nat) : Option Session :=
  if statusCode ≠ some loggedOutCode then some (connectToWhatsApp none)
  else none

/-- The number of connect attempts the process makes in reaction to a
sequence of close events: each non-terminal close triggers one
immediate reconnect whose successor consumes the remaining events; a
logged-out close stops everything. -/
def runCloses : List (Option Nat) → Nat
  | [] => 0
  | r :: rest =>
    match handleConnectionClose r with
    | some _ => 1 + runCloses rest
    | none => 0

/-- The filename composition of part_003 line 132 for an image event,
as the specification states it: downloads directory, sanitized sender
name, the first eight characters of the event id, sanitized caption,
the .jpg extension. -/
def imagePathFor (contacts : ContactMap) (j : String) (m : WAMessage)
    (img : ImageMessage) : String :=
  "downloads/" ++ sanitizeFilename (getContactInfo j contacts).1 50 ++
    "_" ++ substrTake m.key.id 8 ++ "_" ++
    sanitizeFilename (jsOrStr img.caption "") 50 ++ ".jpg"

/-- The filename composition of part_003 line 134 for a text event:
the caption component is omitted and the extension is .txt. -/
def textPathFor (contacts : ContactMap) (j : String) (m : WAMessage) :
    String :=
  "downloads/" ++ sanitizeFilename (getContactInfo j contacts).1 50 ++
    "_" ++ substrTake m.key.id 8 ++ ".txt"

/-- An empty contact cache (name resolution falls back to the jid). -/
def noContacts : ContactMap := []

/-- A broadcast image status whose media stream yields one chunk. -/
def imgEvent : WAMessage :=
  { key := { remoteJid := "status@broadcast", id := "ABCDEF1234567890",
             participant := some "4912345@s.whatsapp.net" },
    participant := none,
    message := some
      { imageMessage := some
          { caption := some "hi there", chunks := [[1, 2, 3]],
            fetchFails := false },
        extendedTextMessage := none, videoMessage := false } }

/-- A broadcast text status with non-empty text. -/
def txtEvent : WAMessage :=
  { key := { remoteJid := "status@broadcast", id := "ABCDEF1234567890",
             participant := some "4912345@s.whatsapp.net" },
    participant := none,
    message := some
      { imageMessage := none,
        extendedTextMessage := some { text := some "hello" },
        videoMessage := false } }

/-- A broadcast status carrying an extended text message whose text is
the empty string (falsy in JavaScript). -/
def emptyTextEvent : WAMessage :=
  { key := { remoteJid := "status@broadcast", id := "ABCDEF1234567890",
             participant := some "4912345@s.whatsapp.net" },
    participant := none,
    message := some
      { imageMessage := none,
        extendedTextMessage := some { text := some "" },
        videoMessage := false } }

/-- A broadcast text status whose event id contains a slash inside its
first eight characters. -/
def slashIdEvent : WAMessage :=
  { key := { remoteJid := "status@broadcast", id := "AB/CDEFGH",
             participant := some "12345@s.whatsapp.net" },
    participant := none,
    message := some
      { imageMessage := none,
        extendedTextMessage := some { text := some "hello" },
        videoMessage := false } }

/-- A broadcast video status. -/
def videoEvent : WAMessage :=
  { key := { remoteJid := "status@broadcast", id := "ABCDEF1234567890",
             participant := some "4912345@s.whatsapp.net" },
    participant := none,
    message := some
      { imageMessage := none, extendedTextMessage := none,
        videoMessage := true } }

/-- A broadcast image status whose media fetch fails. -/
def failFetchEvent : WAMessage :=
  { key := { remoteJid := "status@broadcast", id := "FZQR7777abcdef",
             participant := some "4912345@s.whatsapp.net" },
    participant := none,
    message := some
      { imageMessage := some
          { caption := none, chunks := [], fetchFails := true },
        extendedTextMessage := none, videoMessage := false } }

/-- A sample pacing configuration (milliseconds). -/
def sampleConfig : Config :=
  { minDelay := 1000
    maxDelay := 3000
    batchSize := 50
    batchDelay := 30000 }

/-- A pacing configuration with a batch size of two. -/
def smallBatchConfig : Config :=
  { minDelay := 1000
    maxDelay := 3000
    batchSize := 2
    batchDelay := 30000 }

theorem data_append (a b : String) : (a ++ b).data = a.data ++ b.data :=
  rfl

theorem mem_collapseWSAux {c : Char} :
    ∀ {l : List Char} {b : Bool},
      c ∈ collapseWSAux b l → c = '_' ∨ c ∈ l := by
  intro l
  induction l with
  | nil => intro b h; simp [collapseWSAux] at h
  | cons a rest ih =>
    intro b
    simp only [collapseWSAux]
    by_cases hsp : jsSpace a
    · rw [if_pos hsp]
      cases b with
      | true =>
        intro h
        rcases ih h with h1 | h2
        · exact Or.inl h1
        · exact Or.inr (List.mem_cons_of_mem _ h2)
      | false =>
        intro h
        rcases List.mem_cons.mp h with h1 | h2
        · exact Or.inl h1
        · rcases ih h2 with h3 | h4
          · exact Or.inl h3
          · exact Or.inr (List.mem_cons_of_mem _ h4)
    · rw [if_neg hsp]
      intro h
      rcases List.mem_cons.mp h with h1 | h2
      · exact Or.inr (h1 ▸ List.mem_cons_self _ _)
      · rcases ih h2 with h3 | h4
        · exact Or.inl h3
        · exact Or.inr (List.mem_cons_of_mem _ h4)

theorem mem_collapseWS {c : Char} {l : List Char} :
    c ∈ collapseWS l → c = '_' ∨ c ∈ l :=
  mem_collapseWSAux

theorem sanitize_chars {c : Char} {s : String} {n : Nat} :
    c ∈ (sanitizeFilename s n).data → c ∉ forbiddenChars := by
  intro hc
  unfold sanitizeFilename at hc
  by_cases hs : s = ""
  · simp [hs] at hc
  · simp only [if_neg hs] at hc
    have h2 := List.mem_of_mem_take hc
    rcases mem_collapseWS h2 with h3 | h4
    · subst h3
      decide
    · have := List.of_mem_filter h4
      simpa using this

theorem sanitize_length (s : String) (n : Nat) :
    (sanitizeFilename s n).length ≤ n := by
  unfold sanitizeFilename
  by_cases hs : s = ""
  · simp [hs, String.length]
  · simp only [if_neg hs]
    show (List.take n _).length ≤ n
    exact List.length_take_le _ _

theorem substrTake_length (s : String) (n : Nat) :
    (substrTake s n).length ≤ n := by
  show (List.take n _).length ≤ n
  exact List.length_take_le _ _

theorem length_append (a b : String) :
    (a ++ b).length = a.length + b.length := by
  show (a.data ++ b.data).length = a.data.length + b.data.length
  exact List.length_append _ _

theorem mem_lit_not_forbidden {c : Char} {cs : List Char}
    (hcs : cs.all (fun d => !(forbiddenChars.contains d)) = true)
    (h : c ∈ cs) : c ∉ forbiddenChars := by
  have := List.all_eq_true.mp hcs c h
  simpa using this

/-- Claim C5 counterexample: the event-id prefix is embedded in the
derived name without sanitization (part_003 line 124 applies substring
only), so an event id whose first eight characters contain a slash
produces a derived name containing a path separator, refuting the
claim that names never contain path separators or reserved
characters. -/
theorem claim_derive_name_counterexample :
    derivedBasename noContacts slashIdEvent = some "12345_AB/CDEFG.txt" ∧
    '/' ∈ "12345_AB/CDEFG.txt".data ∧ '/' ∈ forbiddenChars := by
  refine ⟨by decide, by decide, by decide⟩

/-- Claim C5 as amended: derivedBasename is a pure function of the
event and the contact cache (determinism is definitional); every
derived name is at most 114 characters long, the bound induced by the
configured per-component truncation length of 50; and the name
contains no reserved filesystem character provided the first eight
characters of the event id contain none, the sender and caption
components being sanitized unconditionally. -/
theorem claim_derive_name_amended :
    ∀ (contacts : ContactMap) (m : WAMessage) (b : String),
      derivedBasename contacts m = some b →
      b.length ≤ 114 ∧
      ((∀ c ∈ (substrTake m.key.id 8).data, c ∉ forbiddenChars) →
        ∀ c ∈ b.data, c ∉ forbiddenChars) := by
  intro contacts m b hb
  unfold derivedBasename at hb
  cases hs : senderField m with
  | none => rw [hs] at hb; exact absurd hb (by simp)
  | some j =>
    rw [hs] at hb
    cases himg : imageField m with
    | some img =>
      rw [himg] at hb
      have hb2 := Option.some.inj hb
      subst hb2
      constructor
      · simp only [length_append]
        have h1 := sanitize_length (getContactInfo j contacts).1 50
        have h2 := substrTake_length m.key.id 8
        have h3 := sanitize_length (jsOrStr img.caption "") 50
        have h4 : ("_" : String).length = 1 := by decide
        have h5 : (".jpg" : String).length = 4 := by decide
        omega
      · intro hid c hc
        simp only [data_append, List.mem_append] at hc
        rcases hc with ((((hc | hc) | hc) | hc) | hc) | hc
        · exact sanitize_chars hc
        · exact mem_lit_not_forbidden (by decide) hc
        · exact hid c hc
        · exact mem_lit_not_forbidden (by decide) hc
        · exact sanitize_chars hc
        · exact mem_lit_not_forbidden (by decide) hc
    | none =>
      rw [himg] at hb
      cases ht : truthyText m with
      | some t =>
        rw [ht] at hb
        have hb2 := Option.some.inj hb
        subst hb2
        constructor
        · simp only [length_append]
          have h1 := sanitize_length (getContactInfo j contacts).1 50
          have h2 := substrTake_length m.key.id 8
          have h4 : ("_" : String).length = 1 := by decide
          have h5 : (".txt" : String).length = 4 := by decide
          omega
        · intro hid c hc
          simp only [data_append, List.mem_append] at hc
          rcases hc with ((hc | hc) | hc) | hc
          · exact sanitize_chars hc
          · exact mem_lit_not_forbidden (by decide) hc
          · exact hid c hc
          · exact mem_lit_not_forbidden (by decide) hc
      | none => rw [ht] at hb; exact absurd hb (by simp)

/-- Witness for the amended claim C5 at a concrete text event. -/
theorem claim_derive_name_amended_witness :
    derivedBasename noContacts txtEvent = some "4912345_ABCDEF12.txt" ∧
    ("4912345_ABCDEF12.txt".length ≤ 114 ∧
      ∀ c ∈ "4912345_ABCDEF12.txt".data, c ∉ forbiddenChars) := by
  constructor
  · decide
  · have h := claim_derive_name_amended noContacts txtEvent
      "4912345_ABCDEF12.txt" (by decide)
    exact ⟨h.1, h.2 (by decide)⟩

theorem process_noSender (contacts : ContactMap) (m : WAMessage)
    (fs : FS) (hs : senderField m = none) :
    processStatusMessage contacts m fs =
      { fs := fs, fetches := 0, outcome := .skippedNoSender } := by
  unfold processStatusMessage
  rw [hs]

theorem process_image (contacts : ContactMap) (m : WAMessage) (fs : FS)
    (j : String) (img : ImageMessage) (hs : senderField m = some j)
    (himg : imageField m = some img) :
    processStatusMessage contacts m fs =
      if existsSync fs (imagePathFor contacts j m img) then
        { fs := fs, fetches := 0, outcome := .alreadyExists }
      else if img.fetchFails then
        { fs := fs, fetches := 1, outcome := .errored m.key.id "fetch failed" }
      else
        match img.chunks with
        | [] =>
          { fs := fsWrite fs (imagePathFor contacts j m img)
              (.bytes []), fetches := 1, outcome := .savedImage }
        | _ :: _ =>
          { fs := fs, fetches := 1,
            outcome := .errored m.key.id "Assignment to constant variable." } := by
  unfold processStatusMessage
  rw [hs, himg]
  rfl

theorem process_text (contacts : ContactMap) (m : WAMessage) (fs : FS)
    (j t : String) (hs : senderField m = some j)
    (himg : imageField m = none) (ht : truthyText m = some t) :
    processStatusMessage contacts m fs =
      if existsSync fs (textPathFor contacts j m) then
        { fs := fs, fetches := 0, outcome := .alreadyExists }
      else
        { fs := fsWrite fs (textPathFor contacts j m) (.text t),
          fetches := 0, outcome := .savedText } := by
  unfold processStatusMessage
  rw [hs, himg, ht]
  rfl

theorem process_skip (contacts : ContactMap) (m : WAMessage) (fs : FS)
    (j : String) (hs : senderField m = some j)
    (himg : imageField m = none) (ht : truthyText m = none) :
    processStatusMessage contacts m fs =
      if hasVideo m then
        { fs := fs, fetches := 0, outcome := .skippedVideo }
      else { fs := fs, fetches := 0, outcome := .skippedOther } := by
  unfold processStatusMessage
  rw [hs, himg, ht]

/-- Claim C6 counterexample: an event whose payload is an extended
text message with empty text has a text-message payload, yet the
guard on part_003 line 133 treats the empty string as falsy, so the
event falls to the final skip branch and nothing is persisted. -/
theorem claim_text_classification_counterexample :
    (emptyTextEvent.message.bind
        (fun c => c.extendedTextMessage)).isSome = true ∧
    processStatusMessage noContacts emptyTextEvent [] =
      { fs := [], fetches := 0, outcome := .skippedOther } := by
  exact ⟨by decide, by decide⟩

/-- Claim C6 as amended: for every broadcast-scoped event with a
resolvable sender whose payload carries an extended text message with
non-empty (truthy) text and no image payload, processing persists the
text under the derived .txt name whenever that name is not already
present. -/
theorem claim_text_classification_amended :
    ∀ (contacts : ContactMap) (m : WAMessage) (fs : FS) (j t : String),
      senderField m = some j → imageField m = none →
      truthyText m = some t →
      existsSync fs (textPathFor contacts j m) = false →
      processStatusMessage contacts m fs =
        { fs := fsWrite fs (textPathFor contacts j m) (.text t),
          fetches := 0, outcome := .savedText } := by
  intro contacts m fs j t hs himg ht hex
  rw [process_text contacts m fs j t hs himg ht]
  simp [hex]

/-- Witness for the amended claim C6 at a concrete text event. -/
theorem claim_text_classification_amended_witness :
    processStatusMessage noContacts txtEvent [] =
      { fs := fsWrite []
          (textPathFor noContacts "4912345@s.whatsapp.net" txtEvent)
          (.text "hello"),
        fetches := 0, outcome := .savedText } :=
  claim_text_classification_amended noContacts txtEvent []
    "4912345@s.whatsapp.net" "hello" (by decide) (by decide) (by decide)
    (by decide)

/-- Claim C7: an event that is neither an image nor a truthy text
(videos among them) is skipped: the directory is untouched and no
media fetch is started. -/
theorem claim_unsupported_kind_skip :
    ∀ (contacts : ContactMap) (m : WAMessage) (fs : FS),
      imageField m = none → truthyText m = none →
      (processStatusMessage contacts m fs).fs = fs ∧
      (processStatusMessage contacts m fs).fetches = 0 ∧
      ((processStatusMessage contacts m fs).outcome = .skippedNoSender ∨
       (processStatusMessage contacts m fs).outcome = .skippedVideo ∨
       (processStatusMessage contacts m fs).outcome = .skippedOther) := by
  intro contacts m fs himg ht
  cases hs : senderField m with
  | none =>
    rw [process_noSender contacts m fs hs]
    exact ⟨rfl, rfl, Or.inl rfl⟩
  | some j =>
    rw [process_skip contacts m fs j hs himg ht]
    cases hv : hasVideo m with
    | true => exact ⟨rfl, rfl, Or.inr (Or.inl rfl)⟩
    | false => exact ⟨rfl, rfl, Or.inr (Or.inr rfl)⟩

/-- Witness for claim C7 at a concrete video event. -/
theorem claim_unsupported_kind_skip_witness :
    (processStatusMessage noContacts videoEvent []).fs = [] ∧
    (processStatusMessage noContacts videoEvent []).fetches = 0 ∧
    ((processStatusMessage noContacts videoEvent []).outcome =
        .skippedNoSender ∨
     (processStatusMessage noContacts videoEvent []).outcome =
        .skippedVideo ∨
     (processStatusMessage noContacts videoEvent []).outcome =
        .skippedOther) :=
  claim_unsupported_kind_skip noContacts videoEvent [] (by decide)
    (by decide)

/-- Claim C10: when the derived image filename is already present, the
existence check of part_003 lines 147-151 returns before the download
of line 158 is reached: the directory is unchanged and no fetch is
started. -/
theorem claim_exists_check_before_fetch :
    ∀ (contacts : ContactMap) (m : WAMessage) (fs : FS) (j : String)
      (img : ImageMessage),
      senderField m = some j → imageField m = some img →
      existsSync fs (imagePathFor contacts j m img) = true →
      processStatusMessage contacts m fs =
        { fs := fs, fetches := 0, outcome := .alreadyExists } := by
  intro contacts m fs j img hs himg hex
  rw [process_image contacts m fs j img hs himg]
  simp [hex]

/-- Witness for claim C10: redelivering the image event when its
derived name already sits in the directory touches nothing. -/
theorem claim_exists_check_before_fetch_witness :
    processStatusMessage noContacts imgEvent
        [("downloads/4912345_ABCDEF12_hi_there.jpg",
          FileContent.bytes [7])] =
      { fs := [("downloads/4912345_ABCDEF12_hi_there.jpg",
          FileContent.bytes [7])],
        fetches := 0, outcome := .alreadyExists } :=
  claim_exists_check_before_fetch noContacts imgEvent
    [("downloads/4912345_ABCDEF12_hi_there.jpg", FileContent.bytes [7])]
    "4912345@s.whatsapp.net"
    { caption := some "hi there", chunks := [[1, 2, 3]],
      fetchFails := false }
    (by decide) (by decide) (by decide)

/-- Claim C2: whenever processing changes the downloads directory, the
change is a single write under the composed name: sanitized sender,
the eight-character event-id component, then for an image artifact the
sanitized caption and the .jpg extension, for a text artifact no
caption component and the .txt extension. -/
theorem claim_naming_composition :
    ∀ (contacts : ContactMap) (m : WAMessage) (fs : FS),
      (processStatusMessage contacts m fs).fs = fs ∨
      (∃ j, senderField m = some j ∧
        ((∃ img, imageField m = some img ∧
            (processStatusMessage contacts m fs).fs =
              fsWrite fs (imagePathFor contacts j m img)
                (FileContent.bytes [])) ∨
         (∃ t, truthyText m = some t ∧
            (processStatusMessage contacts m fs).fs =
              fsWrite fs (textPathFor contacts j m)
                (FileContent.text t)))) := by
  intro contacts m fs
  cases hs : senderField m with
  | none => exact Or.inl (by rw [process_noSender contacts m fs hs])
  | some j =>
    cases himg : imageField m with
    | some img =>
      rw [process_image contacts m fs j img hs himg]
      cases hex : existsSync fs (imagePathFor contacts j m img) with
      | true => exact Or.inl (by simp)
      | false =>
        cases hff : img.fetchFails with
        | true => exact Or.inl (by simp)
        | false =>
          cases hch : img.chunks with
          | nil =>
            exact Or.inr ⟨j, rfl, Or.inl ⟨img, rfl, by simp⟩⟩
          | cons c rest => exact Or.inl (by simp)
    | none =>
      cases ht : truthyText m with
      | some t =>
        rw [process_text contacts m fs j t hs himg ht]
        cases hex : existsSync fs (textPathFor contacts j m) with
        | true => exact Or.inl (by simp)
        | false => exact Or.inr ⟨j, rfl, Or.inr ⟨t, rfl, by simp⟩⟩
      | none =>
        rw [process_skip contacts m fs j hs himg ht]
        cases hv : hasVideo m with
        | true => exact Or.inl (by simp)
        | false => exact Or.inl (by simp)

/-- Claim C1: the code contradicts the idempotence property on image
events.  Line 159 of part_003 declares buffer with const and line 161
reassigns it, so the first stream chunk raises a TypeError, the
try/catch logs a failure, and no artifact is written; redelivery does
exactly the same.  Two deliveries of an image event therefore leave
zero artifacts and log an error each time, instead of producing
exactly one artifact with no error. -/
theorem claim_idempotence_image_double_delivery :
    processStatusMessage noContacts imgEvent [] =
      { fs := [], fetches := 1,
        outcome := .errored "ABCDEF1234567890"
          "Assignment to constant variable." } ∧
    liveUpsert noContacts [imgEvent, imgEvent] [] =
      ([], [.errored "ABCDEF1234567890" "Assignment to constant variable.",
            .errored "ABCDEF1234567890" "Assignment to constant variable."]) := by
  exact ⟨by decide, by decide⟩

/-- Claim C4: the close branch reconnects exactly when the disconnect
status code differs from DisconnectReason.loggedOut, and no connect
attempt is ever made after a logged-out close, whatever close events
would follow. -/
theorem claim_reconnect_policy :
    (∀ sc : Option Nat,
      (handleConnectionClose sc).isSome ↔ sc ≠ some loggedOutCode) ∧
    (∀ pre post : List (Option Nat),
      runCloses (pre ++ some loggedOutCode :: post) =
        runCloses (pre ++ [some loggedOutCode])) := by
  constructor
  · intro sc
    by_cases h : sc = some loggedOutCode
    · simp [handleConnectionClose, h]
    · simp [handleConnectionClose, h]
  · intro pre post
    induction pre with
    | nil => simp [runCloses, handleConnectionClose]
    | cons r rest ih =>
      by_cases h : r = some loggedOutCode
      · simp [runCloses, handleConnectionClose, h]
      · simp [runCloses, handleConnectionClose, h, ih]

/-- Witness for claim C4: a transient close reconnects; events after a
logged-out close contribute no further connect attempts. -/
theorem claim_reconnect_policy_witness :
    (handleConnectionClose (some 428)).isSome ∧
    runCloses [some 428, some loggedOutCode, some 428] =
      runCloses [some 428, some loggedOutCode] := by
  constructor
  · exact (claim_reconnect_policy.1 (some 428)).mpr (by decide)
  · exact claim_reconnect_policy.2 [some 428] [some 428]

/-- Claim C9: the code contradicts the claim that the start-time
pacing parameters govern every historical drain.  The reconnect call
on part_003 line 72 passes no argument, so the reconnected session
closes over an undefined config; its history drain then raises a
TypeError on line 101 right after the first item, while the same drain
under the original config processes every item. -/
theorem claim_config_lifetime_bug :
    handleConnectionClose (some 428) = some { config := none } ∧
    (historyHandler none noContacts (fun _ => 0) [txtEvent, txtEvent]
        []).fatal =
      some "TypeError: Cannot read properties of undefined (reading batchSize)" ∧
    (historyHandler none noContacts (fun _ => 0) [txtEvent, txtEvent]
        []).outcomes.length = 1 ∧
    (historyHandler (some sampleConfig) noContacts (fun _ => 0)
        [txtEvent, txtEvent] []).outcomes.length = 2 ∧
    (historyHandler (some sampleConfig) noContacts (fun _ => 0)
        [txtEvent, txtEvent] []).fatal = none := by
  refine ⟨by decide, by decide, by decide, by decide, by decide⟩

theorem drainGo_gaps (cfg : Config) (contacts : ContactMap)
    (rand : Nat → ℚ) :
    ∀ (ms : List WAMessage) (i total : Nat) (fs : FS),
      (drainGo (some cfg) contacts rand ms i total fs).gaps =
        (List.range' i ms.length).map
          (fun k => gapAt cfg rand k total) := by
  intro ms
  induction ms with
  | nil => intro i total fs; rfl
  | cons m rest ih =>
    intro i total fs
    simp only [drainGo]
    rw [ih]
    rfl

theorem drainGo_len_fatal (cfg : Config) (contacts : ContactMap)
    (rand : Nat → ℚ) :
    ∀ (ms : List WAMessage) (i total : Nat) (fs : FS),
      (drainGo (some cfg) contacts rand ms i total fs).outcomes.length =
        ms.length ∧
      (drainGo (some cfg) contacts rand ms i total fs).fatal = none := by
  intro ms
  induction ms with
  | nil => intro i total fs; exact ⟨rfl, rfl⟩
  | cons m rest ih =>
    intro i total fs
    simp only [drainGo]
    constructor
    · simp [(ih (i + 1) total
        (processStatusMessage contacts m fs).fs).1]
    · exact (ih (i + 1) total (processStatusMessage contacts m fs).fs).2

theorem countP_ext {α : Type} (p q : α → Bool) :
    ∀ l : List α, (∀ a ∈ l, p a = q a) → l.countP p = l.countP q := by
  intro l
  induction l with
  | nil => intro _; rfl
  | cons a rest ih =>
    intro h
    rw [List.countP_cons, List.countP_cons, h a (by simp),
      ih (fun b hb => h b (by simp [hb]))]

theorem countMulRange (B : Nat) :
    ∀ n : Nat,
      (List.range n).countP (fun j => decide ((j + 1) % B = 0)) =
        n / B := by
  intro n
  induction n with
  | zero => simp
  | succ n ih =>
    rw [List.range_succ, List.countP_append, ih, Nat.succ_div]
    by_cases h : (n + 1) % B = 0
    · have hd : B ∣ n + 1 := Nat.dvd_iff_mod_eq_zero.mpr h
      simp [List.countP_cons, h, hd]
    · have hd : ¬ B ∣ n + 1 := fun hc =>
        h (Nat.dvd_iff_mod_eq_zero.mp hc)
      simp [List.countP_cons, h, hd]

theorem countLong_gapAt (cfg : Config) (rand : Nat → ℚ) (N : Nat) :
    ((List.range N).map (fun k => gapAt cfg rand k N)).countP isLongGap =
      (N - 1) / cfg.batchSize := by
  cases N with
  | zero => simp
  | succ n =>
    rw [List.range_succ, List.map_append, List.countP_append,
      List.countP_map]
    have hlast :
        (List.map (fun k => gapAt cfg rand k (n + 1)) [n]).countP
          isLongGap = 0 := by
      simp [gapAt, isLongGap]
    rw [hlast, Nat.add_zero]
    rw [countP_ext _ (fun j => decide ((j + 1) % cfg.batchSize = 0))
      (List.range n) ?_]
    · rw [countMulRange]
      simp
    · intro k hk
      have hk2 : k + 1 < n + 1 := by
        have := List.mem_range.mp hk
        omega
      have hkn : k < n := List.mem_range.mp hk
      by_cases hmod : (k + 1) % cfg.batchSize = 0
      · simp [Function.comp_apply, gapAt, isLongGap, hmod, hk2, hkn]
      · simp [Function.comp_apply, gapAt, isLongGap, hmod]

theorem jitter_bounds (cfg : Config)
    (hle : cfg.minDelay ≤ cfg.maxDelay) (q : ℚ) (h0 : 0 ≤ q)
    (h1 : q < 1) :
    cfg.minDelay ≤ jitter cfg q ∧ jitter cfg q ≤ cfg.maxDelay := by
  unfold jitter
  have hk : ((cfg.maxDelay : ℚ) - (cfg.minDelay : ℚ) + 1) =
      ((cfg.maxDelay - cfg.minDelay + 1 : ℕ) : ℚ) := by
    push_cast [Nat.cast_sub hle]
    ring
  rw [hk]
  set k : ℕ := cfg.maxDelay - cfg.minDelay + 1 with hkdef
  have hkpos : (0 : ℚ) < (k : ℚ) := by
    have : 1 ≤ k := by omega
    exact_mod_cast Nat.lt_of_lt_of_le Nat.zero_lt_one this
  have hfl0 : (0 : ℤ) ≤ ⌊q * (k : ℚ)⌋ :=
    Int.floor_nonneg.mpr (mul_nonneg h0 (le_of_lt hkpos))
  have hflu : ⌊q * (k : ℚ)⌋ < (k : ℤ) := by
    apply Int.floor_lt.mpr
    have hcast : (((k : ℤ)) : ℚ) = (k : ℚ) := by
      exact_mod_cast rfl
    rw [hcast]
    exact mul_lt_of_lt_one_left hkpos h1
  have htn : (⌊q * (k : ℚ)⌋).toNat ≤ k - 1 := by omega
  constructor
  · exact Nat.le_add_left _ _
  · omega

/-- Claim C3: over a historical batch whose broadcast-scoped part has
N items and batch size B, the drain issues one pause per item, exactly
(N - 1) / B of them are the long batchDelay pause, and every other
pause is the randomized jitter, which falls inside the configured
window whenever minDelay is at most maxDelay and the random draws lie
in the unit interval. -/
theorem claim_pacing_schedule :
    ∀ (cfg : Config) (contacts : ContactMap) (rand : Nat → ℚ)
      (messages : List WAMessage) (fs : FS),
      cfg.minDelay ≤ cfg.maxDelay →
      (∀ i, 0 ≤ rand i ∧ rand i < 1) →
      ((historyHandler (some cfg) contacts rand messages fs).gaps.length =
          (messages.filter
            (fun m => m.key.remoteJid == "status@broadcast")).length ∧
       (historyHandler (some cfg) contacts rand messages fs).gaps.countP
            isLongGap =
          ((messages.filter
            (fun m => m.key.remoteJid == "status@broadcast")).length - 1) /
            cfg.batchSize ∧
       ∀ g ∈ (historyHandler (some cfg) contacts rand messages fs).gaps,
          ∀ t, g = Gap.short t →
            cfg.minDelay ≤ t ∧ t ≤ cfg.maxDelay) := by
  intro cfg contacts rand messages fs hle hrand
  unfold historyHandler
  rw [drainGo_gaps, ← List.range_eq_range']
  refine ⟨by simp, countLong_gapAt cfg rand _, ?_⟩
  intro g hg t hgt
  subst hgt
  rw [List.mem_map] at hg
  obtain ⟨k, hk, hfk⟩ := hg
  unfold gapAt at hfk
  by_cases hc : (k + 1) % cfg.batchSize = 0 ∧
      k + 1 < (messages.filter
        (fun m => m.key.remoteJid == "status@broadcast")).length
  · rw [if_pos hc] at hfk
    simp at hfk
  · rw [if_neg hc] at hfk
    have ht2 : t = jitter cfg (rand k) := (Gap.short.inj hfk).symm
    rw [ht2]
    exact jitter_bounds cfg hle (rand k) (hrand k).1 (hrand k).2

/-- Witness for claim C3: three text statuses with batch size two give
exactly one long pause, and the jitter pauses sit in the window. -/
theorem claim_pacing_schedule_witness :
    (historyHandler (some smallBatchConfig) noContacts (fun _ => 0)
        [txtEvent, txtEvent, txtEvent] []).gaps.countP isLongGap = 1 := by
  have h := claim_pacing_schedule smallBatchConfig noContacts
    (fun _ => 0) [txtEvent, txtEvent, txtEvent] [] (by decide)
    (fun i => ⟨by norm_num, by norm_num⟩)
  exact h.2.1.trans (by decide)

/-- Claim C8: the drain never aborts on an item failure: every item of
the batch yields exactly one outcome and the handler raises nothing;
and a failing media fetch for one item is caught and turned into a
logged failure carrying that item id, with the directory untouched. -/
theorem claim_failure_isolation :
    ∀ (cfg : Config) (contacts : ContactMap) (rand : Nat → ℚ)
      (ms : List WAMessage) (i total : Nat) (fs : FS),
      ((drainGo (some cfg) contacts rand ms i total fs).outcomes.length =
          ms.length ∧
       (drainGo (some cfg) contacts rand ms i total fs).fatal = none) ∧
      (∀ (m : WAMessage) (j : String) (img : ImageMessage) (fsx : FS),
        senderField m = some j → imageField m = some img →
        img.fetchFails = true →
        existsSync fsx (imagePathFor contacts j m img) = false →
        processStatusMessage contacts m fsx =
          { fs := fsx, fetches := 1,
            outcome := .errored m.key.id "fetch failed" }) := by
  intro cfg contacts rand ms i total fs
  refine ⟨drainGo_len_fatal cfg contacts rand ms i total fs, ?_⟩
  intro m j img fsx hs himg hff hex
  rw [process_image contacts m fsx j img hs himg]
  simp [hex, hff]

/-- Witness for claim C8: a two-item drain whose first item has a
failing fetch still yields two outcomes, and the failing item is
logged with its id over an unchanged directory. -/
theorem claim_failure_isolation_witness :
    (drainGo (some sampleConfig) noContacts (fun _ => 0)
        [failFetchEvent, txtEvent] 0 2 []).outcomes.length = 2 ∧
    processStatusMessage noContacts failFetchEvent [] =
      { fs := [], fetches := 1,
        outcome := .errored "FZQR7777abcdef" "fetch failed" } := by
  constructor
  · exact (claim_failure_isolation sampleConfig noContacts (fun _ => 0)
      [failFetchEvent, txtEvent] 0 2 []).1.1
  · exact (claim_failure_isolation sampleConfig noContacts (fun _ => 0)
      [] 0 0 []).2 failFetchEvent "4912345@s.whatsapp.net"
      { caption := none, chunks := [], fetchFails := true } []
      (by decide) (by decide) (by decide) (by decide)
